import Mathlib

/-!
Formalization of the AuraProtocol risk engine, a shallow embedding of the
wasip1 mock-data workflow in `src/main.go` (the first variant, lines 1-430).

Modelling conventions:
* Go `float64` values are embedded as rationals `ℚ`; every constant of the
  program (243.75, 0.05, 3.0, ...) is an exact decimal, so all comparisons
  performed by the program coincide with the rational ones.  The single
  place where float semantics genuinely diverge from `ℚ` (division by a
  zero mean inside `computeConsensus`, which yields NaN or an infinity in
  Go but `0` in `ℚ`) is modelled separately by an `Option ℚ` valued
  function, `variancePercentGoFloat`.
* `math.Sqrt` is embedded as an abstract parameter `sqrtFn : ℚ → ℚ`; the
  program only ever applies it to `0` (all observation lists it builds are
  singletons), so theorems about the orchestrator assume `sqrtFn 0 = 0`.
* `sort.Slice(prices, func(i, j) { prices[i].Price < prices[j].Price })`
  sorts the slice in place into price-ascending order; it is embedded as
  `List.insertionSort` on the relation `a.price ≤ b.price` (any sorting
  algorithm yields the same price sequence; tie order among equal prices is
  unspecified in Go and immaterial to every computed quantity).  The
  in-place mutation of the caller slice is made explicit by returning the
  sorted list alongside the result (`computeConsensusFull`).
* The package-level mutable state (`previousGoldPrice`, `previousMsftPrice`,
  `executionCount`, `varianceHistory`) is embedded as an explicit
  `GuardState` record threaded through the evaluation.
-/

namespace AuraProtocol

/-- The `MAX_DEVIANCE` constant of src/main.go line 20: 5% maximum price
deviation before the RWA guard triggers. -/
def MAX_DEVIANCE : ℚ := 0.05

/-- The `PREDICTIVE_RISK_BONUS` constant of src/main.go line 21: risk bonus
added when momentum acceleration is detected. -/
def PREDICTIVE_RISK_BONUS : ℚ := 3.0

/-- The workflow configuration (src/main.go lines 38-46), flattened:
`Consensus.MaxVariancePercent`, `RiskParameters.HighVolatilityThreshold`,
`RiskParameters.ExtremeVolatilityThreshold`. -/
structure Config where
  maxVariancePercent : ℚ
  highVolatilityThreshold : ℚ
  extremeVolatilityThreshold : ℚ
deriving DecidableEq, Repr

/-- A price observation (src/main.go lines 48-53); the `Timestamp` field is
dropped because no computation reads it. -/
structure PriceData where
  symbol : String
  price : ℚ
  source : String
deriving DecidableEq, Repr

/-- The result of `computeConsensus` (src/main.go lines 370-374). -/
@[ext]
structure ConsensusResult where
  medianPrice : ℚ
  variance : ℚ
  riskScore : ℚ
deriving DecidableEq, Repr

/-- The price-ascending comparison passed to `sort.Slice` in
`computeConsensus` (src/main.go lines 384-386), as a relation. -/
def priceLE (a b : PriceData) : Prop := a.price ≤ b.price

instance : DecidableRel priceLE := fun a b => inferInstanceAs (Decidable (a.price ≤ b.price))

instance : IsTotal PriceData priceLE := ⟨fun a b => le_total a.price b.price⟩

instance : IsTrans PriceData priceLE := ⟨fun _ _ _ h₁ h₂ => le_trans h₁ h₂⟩

/-- The in-place sort performed by `computeConsensus` (src/main.go line 384):
the input slice reordered into price-ascending order. -/
def sortByPrice (prices : List PriceData) : List PriceData :=
  List.insertionSort priceLE prices

/-- The risk scoring of `computeConsensus` (src/main.go lines 411-419):
strict threshold comparisons, highest tier first. -/
def riskScoreOf (config : Config) (variancePercent : ℚ) : ℚ :=
  if variancePercent > config.extremeVolatilityThreshold then 10.0
  else if variancePercent > config.highVolatilityThreshold then 7.0
  else if variancePercent > config.maxVariancePercent then 4.0
  else 0.0

/-- The body of `computeConsensus` (src/main.go lines 378-426), keeping the
mutated input slice explicit: the second component is the state of the
caller slice after the call (`sort.Slice` reorders it in place).  All
arithmetic is over `ℚ`; `math.Sqrt` is the parameter `sqrtFn`. -/
def computeConsensusFull (sqrtFn : ℚ → ℚ) (config : Config)
    (prices : List PriceData) : ConsensusResult × List PriceData :=
  if prices.length = 0 then (⟨0, 0, 0⟩, prices)
  else
    let sorted := sortByPrice prices
    let n := sorted.length
    let median : ℚ :=
      if n % 2 = 0 then
        ((sorted.getD (n / 2 - 1) ⟨"", 0, ""⟩).price
          + (sorted.getD (n / 2) ⟨"", 0, ""⟩).price) / 2.0
      else (sorted.getD (n / 2) ⟨"", 0, ""⟩).price
    let sum : ℚ := (sorted.map (fun p => p.price)).sum
    let mean : ℚ := sum / (n : ℚ)
    let sumSquaredDiff : ℚ :=
      (sorted.map (fun p => (p.price - mean) * (p.price - mean))).sum
    let stdDev : ℚ := sqrtFn (sumSquaredDiff / (n : ℚ))
    let variancePercent : ℚ := stdDev / mean * 100.0
    (⟨median, variancePercent, riskScoreOf config variancePercent⟩, sorted)

/-- The return value of `computeConsensus` (src/main.go lines 378-426). -/
def computeConsensus (sqrtFn : ℚ → ℚ) (config : Config)
    (prices : List PriceData) : ConsensusResult :=
  (computeConsensusFull sqrtFn config prices).1

/-- The mean computed inside `computeConsensus` (src/main.go line 401). -/
def consensusMean (prices : List PriceData) : ℚ :=
  (prices.map (fun p => p.price)).sum / (prices.length : ℚ)

/-- Instrumentation of src/main.go line 409: `computeConsensus` evaluates
`stdDev / mean` unconditionally on every non-empty input (there is no
`mean == 0` branch anywhere in the function), so the division is performed
with a zero divisor exactly when the input is non-empty and its mean is 0. -/
def consensusDividesByZeroMean (prices : List PriceData) : Bool :=
  decide (prices.length ≠ 0 ∧ consensusMean prices = 0)

/-- The `variancePercent` computation of src/main.go line 409 under Go
`float64` semantics: when the mean is `0` the division produces NaN (if the
standard deviation is also `0`) or an infinity, in either case a non-finite
value with no rational counterpart, modelled as `none`. -/
def variancePercentGoFloat (sqrtFn : ℚ → ℚ) (prices : List PriceData) : Option ℚ :=
  let mean := consensusMean prices
  let sumSquaredDiff : ℚ :=
    (prices.map (fun p => (p.price - mean) * (p.price - mean))).sum
  let stdDev := sqrtFn (sumSquaredDiff / (prices.length : ℚ))
  if mean = 0 then none else some (stdDev / mean * 100.0)

/-- The alert strings assigned in `onCronTriggerWithMockData`: `"Normal"`
(line 175), `"CRITICAL_HALT"` (line 271), and the formatted
`"High Volatility: X%"` string (line 325), which carries the variance. -/
inductive Alert where
  | normal : Alert
  | criticalHalt : Alert
  | highVolatility : ℚ → Alert
deriving DecidableEq, Repr

/-- The market momentum strings of `onCronTriggerWithMockData`: `"Stable"`
(line 176), `"Unstable"` (line 227), `"Critical"` (line 272). -/
inductive Momentum where
  | stable : Momentum
  | unstable : Momentum
  | critical : Momentum
deriving DecidableEq, Repr

/-- The package-level mutable state of src/main.go lines 26-33, threaded
explicitly: previous gold and MSFT prices (0 meaning unset), the execution
counter, and the bounded cross-asset variance history. -/
structure GuardState where
  previousGoldPrice : ℚ
  previousMsftPrice : ℚ
  executionCount : ℕ
  varianceHistory : List ℚ
deriving DecidableEq, Repr

/-- The mock gold price chosen by the `switch executionCount` of
src/main.go lines 123-147 (the value of `executionCount` after the
increment at line 107). -/
def mockGoldPrice (executionCount : ℕ) : ℚ :=
  if executionCount = 1 then 243.75
  else if executionCount = 2 then 240.50
  else 180.00

/-- The mock MSFT price of the same `switch`: 438.20 in every stage. -/
def mockMsftPrice (_executionCount : ℕ) : ℚ := 438.20

/-- The artificially injected cross-asset variance of the same `switch`. -/
def mockVariance (executionCount : ℕ) : ℚ :=
  if executionCount = 1 then 0.2
  else if executionCount = 2 then 1.8
  else 25.0

/-- The history trimming of src/main.go lines 189-191: keep only the last
three entries. -/
def trimHistory (history : List ℚ) : List ℚ :=
  if history.length > 3 then history.drop (history.length - 3) else history

/-- The outcome of one pass of the predictive momentum engine
(src/main.go lines 185-248): the updated bounded history, the computed
acceleration when three data points are available, whether the predictive
warning fired, and the risk bonus it contributes. -/
structure MomentumOutcome where
  newHistory : List ℚ
  acceleration : Option ℚ
  unstable : Bool
  riskBonus : ℚ
deriving DecidableEq, Repr

/-- The predictive momentum engine of src/main.go lines 185-248: append the
current cross-asset variance, trim to the last three entries, and when three
points are available compare the discrete second difference against the 0.5
threshold (line 224). -/
def momentumUpdate (history : List ℚ) (crossAssetVariance : ℚ) : MomentumOutcome :=
  let h := trimHistory (history ++ [crossAssetVariance])
  if h.length ≥ 2 then
    if h.length ≥ 3 then
      let currentVariance := h.getD (h.length - 1) 0
      let previousVariance := h.getD (h.length - 2) 0
      let oldestVariance := h.getD (h.length - 3) 0
      let varianceGrowth := currentVariance - previousVariance
      let previousGrowth := previousVariance - oldestVariance
      let acceleration := varianceGrowth - previousGrowth
      if acceleration > 0.5 then ⟨h, some acceleration, true, PREDICTIVE_RISK_BONUS⟩
      else ⟨h, some acceleration, false, 0⟩
    else ⟨h, none, false, 0⟩
  else ⟨h, none, false, 0⟩

/-- The RWA guard condition of src/main.go lines 255-268: the guard body
runs only when `previousGoldPrice != 0.0`, and inside it the protection
circuit activates when `|goldPrice - previousGoldPrice| / previousGoldPrice`
exceeds `MAX_DEVIANCE`. -/
def deviationGuardTriggered (previousGoldPrice goldPrice : ℚ) : Bool :=
  decide (previousGoldPrice ≠ 0 ∧
    |goldPrice - previousGoldPrice| / previousGoldPrice > MAX_DEVIANCE)

/-- The source string of the mock observations (src/main.go line 156). -/
def mockSource : String := "Mock Data (Simulation Mode)"

/-- The per-cycle output fields of `onCronTriggerWithMockData`
(the `ExecutionResult` of src/main.go lines 66-79 restricted to the fields
computed by the risk pipeline), plus `onChainWriteRequested`, which records
whether the cycle reached the `runtime.GenerateReport` call of line 299
(the only external actuation in the program). -/
structure CycleResult where
  goldPrice : ℚ
  msftPrice : ℚ
  goldVariance : ℚ
  msftVariance : ℚ
  crossAssetVariance : ℚ
  volatilityWarning : Alert
  systemRiskScore : ℚ
  marketMomentum : Momentum
  onChainWriteRequested : Bool
deriving DecidableEq, Repr

/-- One execution of the body of `onCronTriggerWithMockData`
(src/main.go lines 103-341), without the tail self-recursion: the snapshot
fields computed by the cycle, as a function of the entering state.  The
steps, in source order: increment the counter and pick the staged mock data
(lines 107-147); per-asset consensus on singleton observation lists
(lines 153-169); base risk score as the average of the two consensus risk
scores (line 173); the predictive momentum engine (lines 185-248); the RWA
guard with its override and on-chain report (lines 255-317); the tertiary
high-volatility check, skipped when the alert is already `CRITICAL_HALT`
(lines 324-330). -/
def runCycleResult (sqrtFn : ℚ → ℚ) (config : Config) (s : GuardState) : CycleResult :=
  let executionCount := s.executionCount + 1
  let goldPrice := mockGoldPrice executionCount
  let msftPrice := mockMsftPrice executionCount
  let artificialVariance := mockVariance executionCount
  let goldConsensus := computeConsensus sqrtFn config [⟨"GOLD", goldPrice, mockSource⟩]
  let msftConsensus := computeConsensus sqrtFn config [⟨"MSFT", msftPrice, mockSource⟩]
  let crossAssetVariance := artificialVariance
  let baseRiskScore := (goldConsensus.riskScore + msftConsensus.riskScore) / 2.0
  let m := momentumUpdate s.varianceHistory crossAssetVariance
  let scoreAfterMomentum :=
    if m.unstable then baseRiskScore + m.riskBonus else baseRiskScore
  let momentumAfterEngine := if m.unstable then Momentum.unstable else Momentum.stable
  let triggered := deviationGuardTriggered s.previousGoldPrice goldPrice
  let scoreAfterGuard : ℚ := if triggered then 10.0 else scoreAfterMomentum
  let alertAfterGuard := if triggered then Alert.criticalHalt else Alert.normal
  let momentumAfterGuard := if triggered then Momentum.critical else momentumAfterEngine
  let bump :=
    crossAssetVariance > config.highVolatilityThreshold ∧
      alertAfterGuard ≠ Alert.criticalHalt
  let finalAlert :=
    if bump then Alert.highVolatility crossAssetVariance else alertAfterGuard
  let finalScore :=
    if bump ∧ scoreAfterGuard < 7.0 then scoreAfterGuard + 2.0 else scoreAfterGuard
  { goldPrice := goldConsensus.medianPrice
    msftPrice := msftConsensus.medianPrice
    goldVariance := goldConsensus.variance
    msftVariance := msftConsensus.variance
    crossAssetVariance := crossAssetVariance
    volatilityWarning := finalAlert
    systemRiskScore := finalScore
    marketMomentum := momentumAfterGuard
    onChainWriteRequested := triggered }

/-- The net effect of one cycle on the package-level state: the counter is
incremented (line 107), the variance history is appended and trimmed
(lines 186-191), and the previous prices are unconditionally overwritten
with the current ones (lines 320-321). -/
def stepState (s : GuardState) : GuardState :=
  let executionCount := s.executionCount + 1
  { previousGoldPrice := mockGoldPrice executionCount
    previousMsftPrice := mockMsftPrice executionCount
    executionCount := executionCount
    varianceHistory :=
      (momentumUpdate s.varianceHistory (mockVariance executionCount)).newHistory }

/-- One cycle of `onCronTriggerWithMockData`: the snapshot it computes and
the state it leaves behind. -/
def runCycle (sqrtFn : ℚ → ℚ) (config : Config) (s : GuardState) :
    CycleResult × GuardState :=
  (runCycleResult sqrtFn config s, stepState s)

/-- The full handler `onCronTriggerWithMockData` including its tail
self-recursion (src/main.go lines 343-349): after a cycle, if
`executionCount < 3` the handler calls itself and returns the nested result.
The third component counts how many nested evaluations of the handler body
occurred before a result was returned. -/
def runHandler (sqrtFn : ℚ → ℚ) (config : Config) (s : GuardState) :
    CycleResult × GuardState × ℕ :=
  let r := runCycleResult sqrtFn config s
  let next := stepState s
  if next.executionCount < 3 then
    let inner := runHandler sqrtFn config next
    (inner.1, inner.2.1, inner.2.2 + 1)
  else (r, next, 1)
termination_by 3 - s.executionCount
decreasing_by
  unfold next at *
  simp only [stepState] at *
  omega

/-- The initial package-level state of src/main.go lines 26-33: prices
unset (0), counter 0, empty history. -/
def initialState : GuardState := ⟨0, 0, 0, []⟩

/-- The state after the first `k` cycles, starting from the fresh process
state.  Because the staged mock data depends only on the execution counter,
this enumerates every state the program can reach at a cycle boundary. -/
def stateAfter : ℕ → GuardState
  | 0 => initialState
  | k + 1 => stepState (stateAfter k)

/-- Spec-side definition for the median claim: the ascending sort of the
observation prices.  The specification speaks of "the standard middle
value(s) of the price-sorted list"; this is the price-sorted list. -/
def sortedPrices (prices : List PriceData) : List ℚ :=
  List.insertionSort (· ≤ ·) (prices.map (fun p => p.price))

/-- Spec-side definition for the median claim: the standard middle value of
a list, per the specification text: for N elements the value at index N/2
(0-based, floor) when N is odd, and the arithmetic mean of the two central
values when N is even. -/
def middleValue (s : List ℚ) : ℚ :=
  if s.length % 2 = 0 then
    (s.getD (s.length / 2 - 1) 0 + s.getD (s.length / 2) 0) / 2
  else s.getD (s.length / 2) 0

/-! ## Helper lemmas -/

/-- On a singleton observation list the consensus has the observation price
as median, variance percent 0 (the sum of squared deviations is 0), and the
risk score of a zero variance percent. -/
theorem consensus_singleton (sqrtFn : ℚ → ℚ) (config : Config) (sym src : String)
    (p : ℚ) (h0 : sqrtFn 0 = 0) :
    computeConsensus sqrtFn config [⟨sym, p, src⟩] = ⟨p, 0, riskScoreOf config 0⟩ := by
  simp [computeConsensus, computeConsensusFull, sortByPrice, List.insertionSort, h0]

/-- The risk score takes only the four tier values 0, 4, 7, 10. -/
theorem riskScoreOf_values (config : Config) (v : ℚ) :
    riskScoreOf config v = 0 ∨ riskScoreOf config v = 4 ∨ riskScoreOf config v = 7 ∨
      riskScoreOf config v = 10 := by
  unfold riskScoreOf
  split_ifs <;> norm_num

/-- When the RWA guard fires in a cycle, that cycle ends with risk score
exactly 10, a CRITICAL_HALT alert, critical momentum and the on-chain report
requested; the tertiary volatility bump is skipped because the alert is
already CRITICAL_HALT. -/
theorem guard_triggered_override (sqrtFn : ℚ → ℚ) (config : Config) (s : GuardState)
    (ht : deviationGuardTriggered s.previousGoldPrice
      (mockGoldPrice (s.executionCount + 1)) = true) :
    (runCycleResult sqrtFn config s).systemRiskScore = 10 ∧
      (runCycleResult sqrtFn config s).volatilityWarning = Alert.criticalHalt ∧
      (runCycleResult sqrtFn config s).marketMomentum = Momentum.critical ∧
      (runCycleResult sqrtFn config s).onChainWriteRequested = true := by
  simp only [runCycleResult, ht]
  norm_num

/-- In a cycle where neither the RWA guard nor the momentum engine fires,
the risk score is the base tier score possibly bumped by 2, hence within
[0, 10]. -/
theorem calm_cycle_score_bounds (sqrtFn : ℚ → ℚ) (config : Config) (s : GuardState)
    (h0 : sqrtFn 0 = 0)
    (ht : deviationGuardTriggered s.previousGoldPrice
      (mockGoldPrice (s.executionCount + 1)) = false)
    (hm : (momentumUpdate s.varianceHistory
      (mockVariance (s.executionCount + 1))).unstable = false) :
    0 ≤ (runCycleResult sqrtFn config s).systemRiskScore ∧
      (runCycleResult sqrtFn config s).systemRiskScore ≤ 10 := by
  simp only [runCycleResult, ht, hm, consensus_singleton sqrtFn config _ _ _ h0]
  simp only [Bool.false_eq_true, if_false, add_self_div_two]
  rcases riskScoreOf_values config 0 with h | h | h | h <;>
    rw [h] <;> split_ifs <;> norm_num at *

/-- From the third cycle on the staged gold price is the flash-crash 180. -/
theorem mockGoldPrice_of_three_le {n : ℕ} (h : 3 ≤ n) : mockGoldPrice n = 180 := by
  unfold mockGoldPrice
  rw [if_neg (by omega), if_neg (by omega)]
  norm_num

/-- From the third cycle on the staged cross-asset variance is 25. -/
theorem mockVariance_of_three_le {n : ℕ} (h : 3 ≤ n) : mockVariance n = 25 := by
  unfold mockVariance
  rw [if_neg (by omega), if_neg (by omega)]
  norm_num

/-- State after cycle 1: baseline prices recorded, history [0.2]. -/
theorem stateAfter_one : stateAfter 1 = ⟨243.75, 438.20, 1, [0.2]⟩ := by
  simp [stateAfter, stepState, initialState, momentumUpdate, trimHistory,
    mockGoldPrice, mockMsftPrice, mockVariance]

/-- State after cycle 2: history [0.2, 1.8]. -/
theorem stateAfter_two : stateAfter 2 = ⟨240.50, 438.20, 2, [0.2, 1.8]⟩ := by
  rw [show (2:ℕ) = 1 + 1 from rfl, stateAfter, stateAfter_one]
  simp [stepState, momentumUpdate, trimHistory, mockGoldPrice, mockMsftPrice,
    mockVariance]

/-- State after cycle 3: the flash-crash price with full history. -/
theorem stateAfter_three : stateAfter 3 = ⟨180, 438.20, 3, [0.2, 1.8, 25]⟩ := by
  rw [show (3:ℕ) = 2 + 1 from rfl, stateAfter, stateAfter_two]
  norm_num [stepState, momentumUpdate, trimHistory, mockGoldPrice, mockMsftPrice,
    mockVariance, apply_ite MomentumOutcome.newHistory]

/-- State after cycle 4: the history window has slid past 0.2. -/
theorem stateAfter_four : stateAfter 4 = ⟨180, 438.20, 4, [1.8, 25, 25]⟩ := by
  rw [show (4:ℕ) = 3 + 1 from rfl, stateAfter, stateAfter_three]
  norm_num [stepState, momentumUpdate, trimHistory, mockGoldPrice, mockMsftPrice,
    mockVariance, apply_ite MomentumOutcome.newHistory]

/-- From cycle 5 on the state is constant apart from the counter. -/
theorem stateAfter_add_five (k : ℕ) :
    stateAfter (k + 5) = ⟨180, 438.20, k + 5, [25, 25, 25]⟩ := by
  induction k with
  | zero =>
      rw [show (0:ℕ) + 5 = 4 + 1 from rfl, stateAfter, stateAfter_four]
      norm_num [stepState, momentumUpdate, trimHistory,
        mockGoldPrice_of_three_le (show (3:ℕ) ≤ 5 by omega),
        mockVariance_of_three_le (show (3:ℕ) ≤ 5 by omega), mockMsftPrice,
        apply_ite MomentumOutcome.newHistory]
  | succ n ih =>
      rw [show (n + 1) + 5 = (n + 5) + 1 from rfl, stateAfter, ih]
      norm_num [stepState, momentumUpdate, trimHistory,
        mockGoldPrice_of_three_le (show (3:ℕ) ≤ n + 5 + 1 by omega),
        mockVariance_of_three_le (show (3:ℕ) ≤ n + 5 + 1 by omega), mockMsftPrice,
        apply_ite MomentumOutcome.newHistory]

/-- With an unset (zero) previous price the guard cannot fire, whatever the
current price. -/
theorem guard_unset_baseline (p : ℚ) : deviationGuardTriggered 0 p = false := by
  simp [deviationGuardTriggered]

/-- Cycle 2 deviation 3.25 / 243.75 is about 1.33%, below the 5% threshold. -/
theorem guard_cycle_two_quiet : deviationGuardTriggered 243.75 (mockGoldPrice 2) = false := by
  rw [show mockGoldPrice 2 = 240.50 by norm_num [mockGoldPrice]]
  simp only [deviationGuardTriggered, decide_eq_false_iff_not]
  rw [show |(240.50:ℚ) - 243.75| = 13/4 by rw [abs_of_nonpos (by norm_num)]; norm_num]
  norm_num [MAX_DEVIANCE]

/-- Cycle 3 deviation 60.5 / 240.5 is about 25.16%, above the 5% threshold. -/
theorem guard_cycle_three_fires : deviationGuardTriggered 240.50 (mockGoldPrice 3) = true := by
  rw [mockGoldPrice_of_three_le (show (3:ℕ) ≤ 3 by omega)]
  simp only [deviationGuardTriggered, decide_eq_true_eq]
  rw [show |(180:ℚ) - 240.50| = 121/2 by rw [abs_of_nonpos (by norm_num)]; norm_num]
  norm_num [MAX_DEVIANCE]

/-- A repeated price has zero deviation and never fires the guard. -/
theorem guard_equal_prices_quiet : deviationGuardTriggered 180 180 = false := by
  simp only [deviationGuardTriggered, decide_eq_false_iff_not]
  norm_num [MAX_DEVIANCE]

/-- With a single history point the momentum engine stays stable. -/
theorem momentum_one_point : (momentumUpdate [] 0.2).unstable = false := by
  norm_num [momentumUpdate, trimHistory]

/-- With two history points the momentum engine stays stable. -/
theorem momentum_two_points : (momentumUpdate [0.2] 1.8).unstable = false := by
  norm_num [momentumUpdate, trimHistory]

/-- Cycle 4: history slides to [1.8, 25, 25], acceleration is negative. -/
theorem momentum_cycle_four_stable :
    (momentumUpdate [0.2, 1.8, 25] 25).unstable = false := by
  norm_num [momentumUpdate, trimHistory, apply_ite MomentumOutcome.unstable]

/-- Cycle 5: history slides to [25, 25, 25], acceleration is zero. -/
theorem momentum_cycle_five_stable :
    (momentumUpdate [1.8, 25, 25] 25).unstable = false := by
  norm_num [momentumUpdate, trimHistory, apply_ite MomentumOutcome.unstable]

/-- Steady state: constant history keeps the acceleration at zero. -/
theorem momentum_steady_stable :
    (momentumUpdate [25, 25, 25] 25).unstable = false := by
  norm_num [momentumUpdate, trimHistory, apply_ite MomentumOutcome.unstable]

/-- Once the counter has reached 2, the handler runs a single cycle and
returns without recursing. -/
theorem handler_no_recursion_of_two_le (sqrtFn : ℚ → ℚ) (config : Config)
    (s : GuardState) (h : 2 ≤ s.executionCount) :
    (runHandler sqrtFn config s).2.2 = 1 := by
  rw [runHandler]
  have hc : ¬(stepState s).executionCount < 3 := by simp [stepState]; omega
  simp [hc]

/-- Sorting does not change the number of observations. -/
theorem sortByPrice_length (prices : List PriceData) :
    (sortByPrice prices).length = prices.length := by
  unfold sortByPrice
  exact List.length_insertionSort priceLE prices

/-- The sorted price list has the length of the observation list. -/
theorem sortedPrices_length (prices : List PriceData) :
    (sortedPrices prices).length = prices.length := by
  unfold sortedPrices
  rw [List.length_insertionSort, List.length_map]

/-- Projecting the record-level sort to prices gives exactly the sorted
price list: both are sorted and are permutations of the same multiset. -/
theorem map_price_sortByPrice (prices : List PriceData) :
    (sortByPrice prices).map (fun p => p.price) = sortedPrices prices := by
  have hperm : ((sortByPrice prices).map (fun p => p.price)).Perm
      (sortedPrices prices) :=
    ((List.perm_insertionSort priceLE prices).map _).trans
      (List.perm_insertionSort (· ≤ ·) (prices.map (fun p => p.price))).symm
  have hs1 : List.Sorted (· ≤ ·) ((sortByPrice prices).map (fun p => p.price)) :=
    List.pairwise_map.mpr (List.sorted_insertionSort priceLE prices)
  have hs2 : List.Sorted (· ≤ ·) (sortedPrices prices) :=
    List.sorted_insertionSort (· ≤ ·) _
  exact List.eq_of_perm_of_sorted hperm hs1 hs2

/-- Indexing a record list and projecting the price equals indexing the
projected price list, for indices in range. -/
theorem getD_price_eq_map (l : List PriceData) (i : ℕ) (hi : i < l.length) :
    (l.getD i ⟨"", 0, ""⟩).price = (l.map (fun p => p.price)).getD i 0 := by
  simp [List.getD_eq_getElem?_getD, List.getElem?_map, List.getElem?_eq_getElem hi]

/-- The consensus median is the standard middle value of the sorted price
list. -/
theorem consensus_medianPrice_eq_middleValue (sqrtFn : ℚ → ℚ) (config : Config)
    (prices : List PriceData) (h : ¬prices.length = 0) :
    (computeConsensus sqrtFn config prices).medianPrice =
      middleValue (sortedPrices prices) := by
  have hlen := sortByPrice_length prices
  have hql := sortedPrices_length prices
  have hmap := map_price_sortByPrice prices
  unfold computeConsensus computeConsensusFull middleValue
  rw [if_neg h]
  simp only
  rw [hlen, hql]
  split_ifs with hpar
  · rw [getD_price_eq_map _ _ (by rw [hlen]; omega),
      getD_price_eq_map _ _ (by rw [hlen]; omega), hmap]
    norm_num
  · rw [getD_price_eq_map _ _ (by rw [hlen]; omega), hmap]

/-- The consensus variance percent is a function of the sorted price list
and the observation count alone. -/
theorem consensus_variance_eq (sqrtFn : ℚ → ℚ) (config : Config)
    (prices : List PriceData) (h : ¬prices.length = 0) :
    (computeConsensus sqrtFn config prices).variance =
      sqrtFn (((sortedPrices prices).map (fun x =>
            (x - (sortedPrices prices).sum / (prices.length : ℚ))
              * (x - (sortedPrices prices).sum / (prices.length : ℚ)))).sum
          / (prices.length : ℚ))
        / ((sortedPrices prices).sum / (prices.length : ℚ)) * 100 := by
  have hlen := sortByPrice_length prices
  have hmap := map_price_sortByPrice prices
  unfold computeConsensus computeConsensusFull
  rw [if_neg h]
  simp only
  rw [hlen, hmap]
  rw [show (fun p : PriceData =>
        (p.price - (sortedPrices prices).sum / (prices.length : ℚ))
          * (p.price - (sortedPrices prices).sum / (prices.length : ℚ))) =
      (fun x : ℚ =>
        (x - (sortedPrices prices).sum / (prices.length : ℚ))
          * (x - (sortedPrices prices).sum / (prices.length : ℚ)))
      ∘ (fun p : PriceData => p.price) from rfl]
  rw [← List.map_map, hmap]
  norm_num

/-- The consensus risk score is the tier of its own variance percent. -/
theorem consensus_riskScore_eq (sqrtFn : ℚ → ℚ) (config : Config)
    (prices : List PriceData) (h : ¬prices.length = 0) :
    (computeConsensus sqrtFn config prices).riskScore =
      riskScoreOf config ((computeConsensus sqrtFn config prices).variance) := by
  unfold computeConsensus computeConsensusFull
  rw [if_neg h]

/-- Permuting the observations leaves the sorted price list unchanged. -/
theorem sortedPrices_congr_perm (l l2 : List PriceData) (hp : l.Perm l2) :
    sortedPrices l = sortedPrices l2 := by
  have hperm : (sortedPrices l).Perm (sortedPrices l2) :=
    ((List.perm_insertionSort _ _).trans (hp.map _)).trans
      (List.perm_insertionSort _ _).symm
  exact List.eq_of_perm_of_sorted hperm
    (List.sorted_insertionSort _ _) (List.sorted_insertionSort _ _)

/-- The whole consensus result is invariant under permutations of the
observation list. -/
theorem consensus_congr_perm (sqrtFn : ℚ → ℚ) (config : Config)
    (l l2 : List PriceData) (hp : l.Perm l2) :
    computeConsensus sqrtFn config l = computeConsensus sqrtFn config l2 := by
  have hlen := hp.length_eq
  have hsp := sortedPrices_congr_perm l l2 hp
  by_cases h : l.length = 0
  · unfold computeConsensus computeConsensusFull
    rw [if_pos h, if_pos (hlen ▸ h)]
  · have h2 : ¬l2.length = 0 := hlen ▸ h
    have hv : (computeConsensus sqrtFn config l).variance =
        (computeConsensus sqrtFn config l2).variance := by
      rw [consensus_variance_eq sqrtFn config l h,
        consensus_variance_eq sqrtFn config l2 h2, hsp, hlen]
    have hm : (computeConsensus sqrtFn config l).medianPrice =
        (computeConsensus sqrtFn config l2).medianPrice := by
      rw [consensus_medianPrice_eq_middleValue sqrtFn config l h,
        consensus_medianPrice_eq_middleValue sqrtFn config l2 h2, hsp]
    have hr : (computeConsensus sqrtFn config l).riskScore =
        (computeConsensus sqrtFn config l2).riskScore := by
      rw [consensus_riskScore_eq sqrtFn config l h,
        consensus_riskScore_eq sqrtFn config l2 h2, hv]
    exact ConsensusResult.ext hm hv hr

/-! ## Claim theorems -/

/-- C1: whenever the deviation guard triggers (the anchor previous price is
set and the single-cycle deviation exceeds the 5% threshold), the cycle
result has systemRiskScore exactly 10.0, alert CRITICAL_HALT and critical
momentum, regardless of the momentum engine or the per-asset consensus risk
scores; the secondary high-volatility bump is never applied on top of a
CRITICAL_HALT. -/
theorem guard_halt_override_final (sqrtFn : ℚ → ℚ) (config : Config) (s : GuardState)
    (ht : deviationGuardTriggered s.previousGoldPrice
      (mockGoldPrice (s.executionCount + 1)) = true) :
    (runCycleResult sqrtFn config s).systemRiskScore = 10 ∧
      (runCycleResult sqrtFn config s).volatilityWarning = Alert.criticalHalt ∧
      (runCycleResult sqrtFn config s).marketMomentum = Momentum.critical :=
  ⟨(guard_triggered_override sqrtFn config s ht).1,
    (guard_triggered_override sqrtFn config s ht).2.1,
    (guard_triggered_override sqrtFn config s ht).2.2.1⟩

/-- Witness for C1 at the state entering cycle 3 of the staged scenario. -/
theorem guard_halt_override_final_witness :
    deviationGuardTriggered (240.50 : ℚ) (mockGoldPrice (2 + 1)) = true ∧
      ((runCycleResult id ⟨2, 5, 10⟩ ⟨240.50, 438.20, 2, [0.2, 1.8]⟩).systemRiskScore = 10 ∧
        (runCycleResult id ⟨2, 5, 10⟩
          ⟨240.50, 438.20, 2, [0.2, 1.8]⟩).volatilityWarning = Alert.criticalHalt ∧
        (runCycleResult id ⟨2, 5, 10⟩
          ⟨240.50, 438.20, 2, [0.2, 1.8]⟩).marketMomentum = Momentum.critical) :=
  ⟨guard_cycle_three_fires,
    guard_halt_override_final id ⟨2, 5, 10⟩ ⟨240.50, 438.20, 2, [0.2, 1.8]⟩
      guard_cycle_three_fires⟩

/-- C2: in every reachable evaluation cycle, for every configuration and
every square-root function fixing 0, the systemRiskScore carried in the
cycle result lies in the closed interval [0, 10]. -/
theorem risk_score_always_in_bounds (sqrtFn : ℚ → ℚ) (config : Config) (k : ℕ)
    (h0 : sqrtFn 0 = 0) :
    0 ≤ (runCycleResult sqrtFn config (stateAfter k)).systemRiskScore ∧
      (runCycleResult sqrtFn config (stateAfter k)).systemRiskScore ≤ 10 := by
  rcases k with _ | _ | _ | _ | _ | n
  · exact calm_cycle_score_bounds sqrtFn config initialState h0
      (guard_unset_baseline _) momentum_one_point
  · rw [show stateAfter 1 = ⟨243.75, 438.20, 1, [0.2]⟩ from stateAfter_one]
    exact calm_cycle_score_bounds sqrtFn config _ h0 guard_cycle_two_quiet
      momentum_two_points
  · rw [show stateAfter 2 = ⟨240.50, 438.20, 2, [0.2, 1.8]⟩ from stateAfter_two]
    have h := guard_triggered_override sqrtFn config ⟨240.50, 438.20, 2, [0.2, 1.8]⟩
      guard_cycle_three_fires
    rw [h.1]
    norm_num
  · rw [show stateAfter 3 = ⟨180, 438.20, 3, [0.2, 1.8, 25]⟩ from stateAfter_three]
    refine calm_cycle_score_bounds sqrtFn config _ h0 ?_ ?_
    · show deviationGuardTriggered 180 (mockGoldPrice 4) = false
      rw [mockGoldPrice_of_three_le (by omega)]
      exact guard_equal_prices_quiet
    · show (momentumUpdate [0.2, 1.8, 25] (mockVariance 4)).unstable = false
      rw [mockVariance_of_three_le (by omega)]
      exact momentum_cycle_four_stable
  · rw [show stateAfter 4 = ⟨180, 438.20, 4, [1.8, 25, 25]⟩ from stateAfter_four]
    refine calm_cycle_score_bounds sqrtFn config _ h0 ?_ ?_
    · show deviationGuardTriggered 180 (mockGoldPrice 5) = false
      rw [mockGoldPrice_of_three_le (by omega)]
      exact guard_equal_prices_quiet
    · show (momentumUpdate [1.8, 25, 25] (mockVariance 5)).unstable = false
      rw [mockVariance_of_three_le (by omega)]
      exact momentum_cycle_five_stable
  · rw [show stateAfter (n + 5) = ⟨180, 438.20, n + 5, [25, 25, 25]⟩ from
      stateAfter_add_five n]
    refine calm_cycle_score_bounds sqrtFn config _ h0 ?_ ?_
    · show deviationGuardTriggered 180 (mockGoldPrice (n + 5 + 1)) = false
      rw [mockGoldPrice_of_three_le (by omega)]
      exact guard_equal_prices_quiet
    · show (momentumUpdate [25, 25, 25] (mockVariance (n + 5 + 1))).unstable = false
      rw [mockVariance_of_three_le (by omega)]
      exact momentum_steady_stable

/-- Witness for C2 at cycle 3 with a concrete configuration. -/
theorem risk_score_always_in_bounds_witness :
    id (0 : ℚ) = 0 ∧
      (0 ≤ (runCycleResult id ⟨2, 5, 10⟩ (stateAfter 2)).systemRiskScore ∧
        (runCycleResult id ⟨2, 5, 10⟩ (stateAfter 2)).systemRiskScore ≤ 10) :=
  ⟨rfl, risk_score_always_in_bounds id ⟨2, 5, 10⟩ 2 rfl⟩

/-- C3 counterexample: at the fourth cycle of the staged scenario with the
configuration (-3, -2, -1), the cycle result has systemRiskScore 10 (at
least 9) yet no on-chain actuation is requested and the alert is not
CRITICAL_HALT, refuting the claimed disjunct that a score of at least 9.0
with an enabled circuit breaker requests actuation: the program has no
circuitBreakerEnabled configuration and no score-based actuation path. -/
theorem high_risk_without_actuation_cex :
    (runCycleResult id ⟨-3, -2, -1⟩ (stateAfter 3)).systemRiskScore ≥ 9 ∧
      (runCycleResult id ⟨-3, -2, -1⟩ (stateAfter 3)).onChainWriteRequested = false ∧
      (runCycleResult id ⟨-3, -2, -1⟩ (stateAfter 3)).volatilityWarning ≠
        Alert.criticalHalt := by
  rw [stateAfter_three]
  have hg : deviationGuardTriggered 180 (mockGoldPrice 4) = false := by
    rw [mockGoldPrice_of_three_le (by omega)]
    exact guard_equal_prices_quiet
  have hm : (momentumUpdate [0.2, 1.8, 25] (mockVariance 4)).unstable = false := by
    rw [mockVariance_of_three_le (by omega)]
    exact momentum_cycle_four_stable
  simp only [runCycleResult, hg, hm, consensus_singleton id ⟨-3, -2, -1⟩ _ _ _ rfl]
  norm_num [riskScoreOf, mockVariance_of_three_le (show (3:ℕ) ≤ 4 by omega)]
  simp

/-- C3 amended: the evaluation requests the external on-chain actuation
(the `runtime.GenerateReport` call) exactly when the deviation guard
triggered, which coincides with the final alert being CRITICAL_HALT; there
is no score-based actuation condition. -/
theorem actuation_iff_critical_halt (sqrtFn : ℚ → ℚ) (config : Config) (s : GuardState) :
    (runCycleResult sqrtFn config s).onChainWriteRequested = true ↔
      (runCycleResult sqrtFn config s).volatilityWarning = Alert.criticalHalt := by
  simp only [runCycleResult]
  cases h : deviationGuardTriggered s.previousGoldPrice
      (mockGoldPrice (s.executionCount + 1))
  · simp only [h, Bool.false_eq_true, if_false]
    split_ifs <;> simp_all
  · simp only [h, if_true]
    split_ifs <;> simp_all

/-- C4: on a cycle whose retained previous anchor price is unset (zero),
the guard cannot trigger whatever the current price, the cycle raises no
CRITICAL_HALT and requests no actuation, and the current staged price is
recorded as the baseline for the next cycle. -/
theorem first_cycle_baseline_no_halt (sqrtFn : ℚ → ℚ) (config : Config) (s : GuardState)
    (h : s.previousGoldPrice = 0) :
    (∀ p : ℚ, deviationGuardTriggered s.previousGoldPrice p = false) ∧
      (runCycleResult sqrtFn config s).onChainWriteRequested = false ∧
      (runCycleResult sqrtFn config s).volatilityWarning ≠ Alert.criticalHalt ∧
      (stepState s).previousGoldPrice = mockGoldPrice (s.executionCount + 1) := by
  have hg : ∀ p : ℚ, deviationGuardTriggered s.previousGoldPrice p = false := by
    intro p
    rw [h]
    exact guard_unset_baseline p
  refine ⟨hg, ?_, ?_, by simp [stepState]⟩
  · simp [runCycleResult, hg]
  · simp only [runCycleResult, hg]
    split_ifs <;> simp_all

/-- Witness for C4 at the fresh process state. -/
theorem first_cycle_baseline_no_halt_witness :
    initialState.previousGoldPrice = 0 ∧
      ((∀ p : ℚ, deviationGuardTriggered initialState.previousGoldPrice p = false) ∧
        (runCycleResult id ⟨2, 5, 10⟩ initialState).onChainWriteRequested = false ∧
        (runCycleResult id ⟨2, 5, 10⟩ initialState).volatilityWarning ≠
          Alert.criticalHalt ∧
        (stepState initialState).previousGoldPrice =
          mockGoldPrice (initialState.executionCount + 1)) :=
  ⟨rfl, first_cycle_baseline_no_halt id ⟨2, 5, 10⟩ initialState rfl⟩

/-- C5: on the variance history 0.2, 1.8, 25.0 the momentum engine computes
acceleration (25.0 - 1.8) - (1.8 - 0.2) = 21.6, which exceeds the 0.5
threshold, so it reports instability and contributes the predictive risk
bonus of exactly 3.0 (the amount `onCronTriggerWithMockData` then adds to
the system risk score). -/
theorem momentum_history_scenario :
    momentumUpdate [0.2, 1.8] 25.0 =
      ⟨[0.2, 1.8, 25.0], some 21.6, true, 3.0⟩ ∧ PREDICTIVE_RISK_BONUS = 3.0 := by
  constructor
  · norm_num [momentumUpdate, trimHistory, PREDICTIVE_RISK_BONUS]
  · norm_num [PREDICTIVE_RISK_BONUS]

/-- C6 counterexample: on the observation set with the single price 0, the
mean is 0 and `computeConsensus` still evaluates `stdDev / mean` (the
function has no `mean == 0` branch), so it divides by a zero mean; under Go
float semantics the resulting variancePercent is non-finite, not 0. -/
theorem zero_mean_division_cex :
    consensusDividesByZeroMean [⟨"X", 0, "s"⟩] = true ∧
      variancePercentGoFloat id [⟨"X", 0, "s"⟩] = none := by
  norm_num [consensusDividesByZeroMean, consensusMean, variancePercentGoFloat]

/-- C6 amended: `computeConsensus` performs the variancePercent division
unconditionally; a division by a zero mean occurs exactly on non-empty sets
of zero mean, which positive-price observation sets (the only ones the data
model admits) never produce, and on those the division result is a finite
value. -/
theorem positive_prices_no_zero_division (sqrtFn : ℚ → ℚ) (prices : List PriceData)
    (hpos : ∀ p ∈ prices, 0 < p.price) (hne : prices ≠ []) :
    consensusDividesByZeroMean prices = false ∧
      ∃ v, variancePercentGoFloat sqrtFn prices = some v := by
  have hsum : 0 < (prices.map (fun p => p.price)).sum := by
    apply List.sum_pos
    · intro q hq
      obtain ⟨p, hp, rfl⟩ := List.mem_map.mp hq
      exact hpos p hp
    · simpa using hne
  have hlen : 0 < (prices.length : ℚ) := by
    have := List.length_pos.mpr hne
    exact_mod_cast this
  have hmean : consensusMean prices ≠ 0 := by
    unfold consensusMean
    positivity
  constructor
  · simp [consensusDividesByZeroMean, hmean]
  · simp only [variancePercentGoFloat, hmean, if_neg hmean]
    exact ⟨_, rfl⟩

/-- Witness for the amended C6 on a singleton positive-price set. -/
theorem positive_prices_no_zero_division_witness :
    (∀ p ∈ ([⟨"GOLD", 243.75, "s"⟩] : List PriceData), 0 < p.price) ∧
      ([⟨"GOLD", 243.75, "s"⟩] : List PriceData) ≠ [] ∧
      (consensusDividesByZeroMean [⟨"GOLD", 243.75, "s"⟩] = false ∧
        ∃ v, variancePercentGoFloat id [⟨"GOLD", 243.75, "s"⟩] = some v) :=
  ⟨by simp only [List.mem_singleton]; rintro p rfl; norm_num,
    by simp,
    positive_prices_no_zero_division id [⟨"GOLD", 243.75, "s"⟩]
      (by simp only [List.mem_singleton]; rintro p rfl; norm_num) (by simp)⟩

/-- C7: the risk tier score uses strict comparisons, so it is monotone
non-decreasing in the variance percent, and under ordered thresholds a
variance percent exactly equal to a threshold does not escalate to the
higher tier: the extreme threshold itself scores 7, the high threshold 4,
and the elevated threshold 0. -/
theorem risk_tier_strict_and_monotone (config : Config) (v₁ v₂ : ℚ) (h12 : v₁ ≤ v₂)
    (ho1 : config.maxVariancePercent < config.highVolatilityThreshold)
    (ho2 : config.highVolatilityThreshold < config.extremeVolatilityThreshold) :
    riskScoreOf config v₁ ≤ riskScoreOf config v₂ ∧
      riskScoreOf config config.extremeVolatilityThreshold = 7 ∧
      riskScoreOf config config.highVolatilityThreshold = 4 ∧
      riskScoreOf config config.maxVariancePercent = 0 := by
  refine ⟨?_, ?_, ?_, ?_⟩ <;> unfold riskScoreOf <;> split_ifs <;> linarith

/-- Witness for C7 with thresholds 2 < 5 < 10 and variances 1 ≤ 3. -/
theorem risk_tier_strict_and_monotone_witness :
    (1 : ℚ) ≤ 3 ∧ (2 : ℚ) < 5 ∧ (5 : ℚ) < 10 ∧
      (riskScoreOf ⟨2, 5, 10⟩ 1 ≤ riskScoreOf ⟨2, 5, 10⟩ 3 ∧
        riskScoreOf ⟨2, 5, 10⟩ (Config.mk 2 5 10).extremeVolatilityThreshold = 7 ∧
        riskScoreOf ⟨2, 5, 10⟩ (Config.mk 2 5 10).highVolatilityThreshold = 4 ∧
        riskScoreOf ⟨2, 5, 10⟩ (Config.mk 2 5 10).maxVariancePercent = 0) :=
  ⟨by norm_num, by norm_num, by norm_num,
    risk_tier_strict_and_monotone ⟨2, 5, 10⟩ 1 3 (by norm_num) (by norm_num)
      (by norm_num)⟩

/-- C8: on every non-empty observation set the consensus median equals the
standard middle value of the price-sorted list, and the whole consensus
result is invariant under any permutation of the observations. -/
theorem consensus_median_and_perm_invariant (sqrtFn : ℚ → ℚ) (config : Config)
    (l l2 : List PriceData) (hp : l.Perm l2) (hne : ¬l.length = 0) :
    (computeConsensus sqrtFn config l).medianPrice = middleValue (sortedPrices l) ∧
      computeConsensus sqrtFn config l = computeConsensus sqrtFn config l2 :=
  ⟨consensus_medianPrice_eq_middleValue sqrtFn config l hne,
    consensus_congr_perm sqrtFn config l l2 hp⟩

/-- Witness for C8 on a two-element set and its transposition. -/
theorem consensus_median_and_perm_invariant_witness :
    ([⟨"A", 3, "s"⟩, ⟨"B", 1, "s"⟩] : List PriceData).Perm
        [⟨"B", 1, "s"⟩, ⟨"A", 3, "s"⟩] ∧
      ¬([⟨"A", 3, "s"⟩, ⟨"B", 1, "s"⟩] : List PriceData).length = 0 ∧
      ((computeConsensus id ⟨2, 5, 10⟩ [⟨"A", 3, "s"⟩, ⟨"B", 1, "s"⟩]).medianPrice =
          middleValue (sortedPrices [⟨"A", 3, "s"⟩, ⟨"B", 1, "s"⟩]) ∧
        computeConsensus id ⟨2, 5, 10⟩ [⟨"A", 3, "s"⟩, ⟨"B", 1, "s"⟩] =
          computeConsensus id ⟨2, 5, 10⟩ [⟨"B", 1, "s"⟩, ⟨"A", 3, "s"⟩]) :=
  ⟨by decide, by decide,
    consensus_median_and_perm_invariant id ⟨2, 5, 10⟩ _ _ (by decide) (by decide)⟩

/-- C9 counterexample: `computeConsensus` sorts the caller slice in place,
so after a call on two observations in descending price order the input
slice holds the same elements in a different order, refuting the claim that
the input sequence is left unchanged. -/
theorem consensus_input_reordered_cex :
    (computeConsensusFull id ⟨2, 5, 10⟩ [⟨"A", 2, "s"⟩, ⟨"B", 1, "s"⟩]).2 ≠
      [⟨"A", 2, "s"⟩, ⟨"B", 1, "s"⟩] := by
  norm_num [computeConsensusFull, sortByPrice, List.insertionSort,
    List.orderedInsert, priceLE]

/-- C9 amended: the only side effect of `computeConsensus` is reordering
the caller slice in place into price-ascending order: after every call the
slice holds exactly the original elements, sorted by price, and no other
state is touched (the function reads and writes no package-level state). -/
theorem consensus_side_effect_is_inplace_sort (sqrtFn : ℚ → ℚ) (config : Config)
    (prices : List PriceData) :
    (computeConsensusFull sqrtFn config prices).2.Perm prices ∧
      List.Sorted priceLE (computeConsensusFull sqrtFn config prices).2 := by
  unfold computeConsensusFull
  split_ifs with h
  · simp [List.length_eq_zero.mp h]
  · exact ⟨List.perm_insertionSort priceLE prices,
      List.sorted_insertionSort priceLE prices⟩

/-- C10: the handler terminates on every invocation: each pass increments
the execution counter by exactly one and the tail recursion runs only while
the counter is below 3, so at most three nested evaluations of the handler
body occur before a result is returned. -/
theorem handler_recursion_bounded (sqrtFn : ℚ → ℚ) (config : Config) (s : GuardState) :
    (stepState s).executionCount = s.executionCount + 1 ∧
      (runHandler sqrtFn config s).2.2 ≤ 3 := by
  refine ⟨by simp [stepState], ?_⟩
  rcases s with ⟨pg, pm, c, hist⟩
  match c with
  | 0 =>
      rw [runHandler]
      simp only [stepState]
      norm_num
      rw [runHandler]
      simp only [stepState]
      norm_num
      rw [handler_no_recursion_of_two_le sqrtFn config _ (by simp [stepState])]
      try omega
  | 1 =>
      rw [runHandler]
      simp only [stepState]
      norm_num
      rw [handler_no_recursion_of_two_le sqrtFn config _ (by simp [stepState])]
      try omega
  | (n + 2) =>
      rw [handler_no_recursion_of_two_le sqrtFn config _ (by simp)]
      omega

end AuraProtocol
